import Mathlib

/-!
Verification of the exertion-scoring subsystem of `scripts/fetch_strava.py`.

The Python source works on `float` values and `dict` records.  The embedding
models numbers by `ℚ` and records by structures with `Option ℚ` fields
(`None` becomes `none`, a missing dict key and `dict.get` returning `None`
are both `none`).  Python's `round(x, n)` rounds the IEEE double `x` to the
nearest multiple of `10^(-n)`; on the exact rational values arising in the
claims under study the double sits on or above the exact tie point, so the
observable results coincide with round-half-up on exact rationals, which is
how `roundTo` is defined (Mathlib's `round`).
-/

namespace FetchStrava

/-- Module constant `DEFAULT_SCORE_SCALE = 3.5`. -/
def DEFAULT_SCORE_SCALE : ℚ := 7/2

/-- Module constant `SCORE_SCALE_MIN = 0.5`. -/
def SCORE_SCALE_MIN : ℚ := 1/2

/-- Module constant `SCORE_SCALE_MAX = 6.0`. -/
def SCORE_SCALE_MAX : ℚ := 6

/-- Module constant `SCORE_INTENSITY_REF_HR = 250.0`. -/
def SCORE_INTENSITY_REF_HR : ℚ := 250

/-- Module constant `SCORE_BASELINE_MAX_HR = SCORE_INTENSITY_REF_HR`. -/
def SCORE_BASELINE_MAX_HR : ℚ := SCORE_INTENSITY_REF_HR

/-- Module constant `SCORE_MAX_HR_MIN_FACTOR = 0.85`. -/
def SCORE_MAX_HR_MIN_FACTOR : ℚ := 85/100

/-- Module constant `SCORE_MAX_HR_MAX_FACTOR = 1.25`. -/
def SCORE_MAX_HR_MAX_FACTOR : ℚ := 125/100

/-- Python's `round(x, n)` as round-half-up on exact rationals (see the
file header comment). -/
def roundTo (n : ℕ) (x : ℚ) : ℚ := ((round (x * 10 ^ n) : ℤ) : ℚ) / 10 ^ n

/-- `compute_score_base(avg_hr, max_hr, elapsed_time_min)`
(`scripts/fetch_strava.py`, lines 128-139). -/
def compute_score_base (avg_hr max_hr elapsed_time_min : Option ℚ) : Option ℚ :=
  match avg_hr, max_hr, elapsed_time_min with
  | some a, some m, some e =>
    if a ≤ 0 ∨ m ≤ 0 ∨ e ≤ 0 then none
    else
      let intensity := a / SCORE_INTENSITY_REF_HR
      let integrated := intensity * (e / 60)
      let factor :=
        max SCORE_MAX_HR_MIN_FACTOR
          (min SCORE_MAX_HR_MAX_FACTOR (m / SCORE_BASELINE_MAX_HR))
      some (integrated * factor)
  | _, _, _ => none

/-- `estimate_exertion(avg_hr, max_hr, elapsed_time_min, scale)`
(`scripts/fetch_strava.py`, lines 170-181). -/
def estimate_exertion (avg_hr max_hr elapsed_time_min : Option ℚ) (scale : ℚ) :
    Option ℚ :=
  match compute_score_base avg_hr max_hr elapsed_time_min with
  | none => none
  | some base => some (roundTo 2 (max 0 (min 5 (base * scale))))

/-- A raw Strava activity record, restricted to the keys the script reads. -/
structure RawActivity where
  id : Option ℤ
  name : Option String
  type : Option String
  start_date : Option String
  distance : Option ℚ
  moving_time : Option ℚ
  elapsed_time : Option ℚ
  total_elevation_gain : Option ℚ
  average_heartrate : Option ℚ
  max_heartrate : Option ℚ
  perceived_exertion : Option ℚ
  average_speed : Option ℚ
deriving Repr, DecidableEq

/-- The slimmed record built by `slim` (plus the `exertion` and
`estimated_exertion` keys that `main` adds later; they default to `none`,
matching `dict.get` on the not-yet-assigned keys). -/
structure SlimActivity where
  id : Option ℤ
  name : Option String
  type : Option String
  start_date : Option String
  distance_km : ℚ
  moving_time_min : ℚ
  elapsed_time_min : ℚ
  total_elevation_gain_m : Option ℚ
  avg_hr : Option ℚ
  max_hr : Option ℚ
  reported_exertion : Option ℚ
  avg_speed_kmh : Option ℚ
  url : Option String
  exertion : Option ℚ := none
  estimated_exertion : Option ℚ := none
deriving Repr, DecidableEq

/-- Python `x or d` for an optional number `x`: `None` and `0` are falsy. -/
def orFalsy (x : Option ℚ) (d : ℚ) : ℚ :=
  match x with
  | some v => if v = 0 then d else v
  | none => d

/-- Python truthiness of `activity.get("id")`: `None` and `0` are falsy. -/
def idTruthy (id : Option ℤ) : Bool :=
  match id with
  | some n => n ≠ 0
  | none => false

/-- The detail-page URL built from the activity identifier. -/
def stravaUrl (n : ℤ) : String :=
  "https://www.strava.com/activities/" ++ toString n

/-- `slim(activity)` (`scripts/fetch_strava.py`, lines 184-207). -/
def slim (activity : RawActivity) : SlimActivity where
  id := activity.id
  name := activity.name
  type := activity.type
  start_date := activity.start_date
  distance_km := roundTo 2 (orFalsy activity.distance 0 / 1000)
  moving_time_min := roundTo 1 (orFalsy activity.moving_time 0 / 60)
  elapsed_time_min := roundTo 1 (orFalsy activity.elapsed_time 0 / 60)
  total_elevation_gain_m := activity.total_elevation_gain
  avg_hr := activity.average_heartrate
  max_hr := activity.max_heartrate
  reported_exertion := activity.perceived_exertion
  avg_speed_kmh :=
    match activity.average_speed with
    | some v => if v = 0 then none else some (roundTo 2 (v * (36/10)))
    | none => none
  url :=
    match activity.id with
    | some n => if n = 0 then none else some (stravaUrl n)
    | none => none

/-- The fields of a per-activity detail record that `enrich_activity` reads
(`details.get(key)` for the three keys of interest). -/
structure ActivityDetails where
  average_heartrate : Option ℚ
  max_heartrate : Option ℚ
  perceived_exertion : Option ℚ
deriving Repr, DecidableEq

/-- The merge of one key in `enrich_activity`:
`if activity.get(key) is None and details.get(key) is not None:
activity[key] = details.get(key)`. -/
def mergeDetail (a d : Option ℚ) : Option ℚ :=
  match a with
  | some v => some v
  | none => d

/-- `needs_details` flag computed by the loop at the top of
`enrich_activity`: true iff one of the three keys is `None`/absent. -/
def needsDetails (activity : RawActivity) : Bool :=
  activity.average_heartrate.isNone || activity.max_heartrate.isNone ||
    activity.perceived_exertion.isNone

/-- `enrich_activity(activity, access_token)` (`scripts/fetch_strava.py`,
lines 97-109), with the network call `get_activity_details` abstracted as
the lookup function `getDetails`. -/
def enrich_activity (activity : RawActivity) (getDetails : ℤ → ActivityDetails) :
    RawActivity :=
  if ¬ needsDetails activity ∨ ¬ idTruthy activity.id then activity
  else
    match activity.id with
    | none => activity
    | some n =>
      let details := getDetails n
      { activity with
        average_heartrate :=
          mergeDetail activity.average_heartrate details.average_heartrate
        max_heartrate := mergeDetail activity.max_heartrate details.max_heartrate
        perceived_exertion :=
          mergeDetail activity.perceived_exertion details.perceived_exertion }

/-- A JSON value found in the overrides file: a bare number, an object
(whose optional `exertion` member is another JSON value), or anything
else (string, list, null, ...). -/
inductive OverrideEntry where
  | num (q : ℚ)
  | obj (e : Option OverrideEntry)
  | other
deriving Repr

/-- The numeric value `load_exertion_overrides` extracts from one entry:
`value.get("exertion")` when the entry is an object, the entry itself
otherwise, kept only when `isinstance(..., (int, float))`. -/
def entryValue (v : OverrideEntry) : Option ℚ :=
  match v with
  | .obj e =>
    match e with
    | some (.num q) => some q
    | _ => none
  | .num q => some q
  | .other => none

/-- One iteration of the loop in `load_exertion_overrides`: a numeric
entry value is stored under its key (overwriting, as dict assignment
does), anything else is skipped. -/
def overrideStep (acc : String → Option ℚ) (kv : String × OverrideEntry) :
    String → Option ℚ :=
  match entryValue kv.2 with
  | some q => fun k => if k = kv.1 then some q else acc k
  | none => acc

/-- `load_exertion_overrides()` (`scripts/fetch_strava.py`, lines 112-125),
with the decoded JSON object passed in as an association list (in file
order) and the resulting dict modelled as a lookup function; a later entry
for the same key overwrites an earlier one, as in a Python dict. -/
def load_exertion_overrides (payload : List (String × OverrideEntry)) :
    String → Option ℚ :=
  payload.foldl overrideStep (fun _ => none)

/-- One step of the accumulation loop in `fit_score_scale`
(state `(sum_x2, sum_xy, sample_count)`). -/
def fitStep (s : ℚ × ℚ × ℕ) (activity : SlimActivity) : ℚ × ℚ × ℕ :=
  match activity.exertion.orElse (fun _ => activity.reported_exertion) with
  | none => s
  | some actual =>
    match compute_score_base activity.avg_hr activity.max_hr
        activity.elapsed_time_min with
    | none => s
    | some base => (s.1 + base * base, s.2.1 + base * actual, s.2.2 + 1)

/-- `fit_score_scale(activities)` (`scripts/fetch_strava.py`, lines 142-167). -/
def fit_score_scale (activities : List SlimActivity) : ℚ :=
  let acc := activities.foldl fitStep (0, 0, 0)
  if acc.2.2 < 2 ∨ acc.1 ≤ 0 then DEFAULT_SCORE_SCALE
  else
    let scale := acc.2.1 / acc.1
    if scale ≤ 0 then DEFAULT_SCORE_SCALE
    else max SCORE_SCALE_MIN (min SCORE_SCALE_MAX scale)

/-- The calibration sample an activity contributes to the fitter, if any:
`(base, actual)` when the base score is computable and an actual exertion
is known (manual override first, else the self-reported value). -/
def sampleOf (activity : SlimActivity) : Option (ℚ × ℚ) :=
  match activity.exertion.orElse (fun _ => activity.reported_exertion),
      compute_score_base activity.avg_hr activity.max_hr
        activity.elapsed_time_min with
  | some actual, some base => some (base, actual)
  | _, _ => none

/-- All calibration samples of a batch, in order. -/
def calibrationSamples (activities : List SlimActivity) : List (ℚ × ℚ) :=
  activities.filterMap sampleOf

/-- Python `str(activity.get("id"))`: `str(None)` is the string `"None"`. -/
def pyStr (id : Option ℤ) : String :=
  match id with
  | some n => toString n
  | none => "None"

/-- The per-activity body of the first loop in `main` (lines 234-239):
enrich, slim, and attach the manual override as `exertion`. -/
def processActivity (overrides : String → Option ℚ)
    (getDetails : ℤ → ActivityDetails) (activity : RawActivity) : SlimActivity :=
  let payload := slim (enrich_activity activity getDetails)
  { payload with exertion := overrides (pyStr payload.id) }

/-- The computational core of `main` (lines 233-247): first loop producing
the slimmed records with overrides, one `fit_score_scale` call, second
loop attaching `estimated_exertion`. -/
def processActivities (overrides : String → Option ℚ)
    (getDetails : ℤ → ActivityDetails) (activities : List RawActivity) :
    List SlimActivity :=
  let slimmed := activities.map (processActivity overrides getDetails)
  let scale := fit_score_scale slimmed
  slimmed.map fun payload =>
    { payload with
      estimated_exertion :=
        estimate_exertion payload.avg_hr payload.max_hr
          (some payload.elapsed_time_min) scale }

/-- Detail lookup returning an empty record, used by concrete batch runs. -/
def detNone : ℤ → ActivityDetails := fun _ => ⟨none, none, none⟩

/-- A raw activity exercising the unit conversions of `slim`. -/
def convRaw : RawActivity :=
  ⟨none, none, none, none, some 12345, some 1800, some 2000, none, none, none,
    none, none⟩

/-- A raw activity whose source average speed is negative. -/
def negSpeedRaw : RawActivity :=
  ⟨none, none, none, none, none, none, none, none, none, none, none, some (-1)⟩

/-- A raw activity whose source average speed is `5` m/s. -/
def posSpeedRaw : RawActivity :=
  ⟨none, none, none, none, none, none, none, none, none, none, none, some 5⟩

/-- A raw activity with full heart-rate data, one hour elapsed, and a
self-reported exertion, for a concrete batch run. -/
def hrRaw : RawActivity :=
  ⟨none, none, none, none, none, none, some 3600, none, some 150, some 250,
    some 3, none⟩

/-- The slimmed record the pipeline produces from `[hrRaw]` with no
overrides: one calibration sample, default scale `3.5`,
base `3/5`, estimate `round(2.1, 2) = 2.1`. -/
def hrOut : SlimActivity :=
  { id := none, name := none, type := none, start_date := none,
    distance_km := 0, moving_time_min := 0, elapsed_time_min := 60,
    total_elevation_gain_m := none, avg_hr := some 150, max_hr := some 250,
    reported_exertion := some 3, avg_speed_kmh := none, url := none,
    exertion := none, estimated_exertion := some (21/10) }

/-- The overrides file `{"7": 3}` after JSON decoding. -/
def payloadW : List (String × OverrideEntry) := [("7", OverrideEntry.num 3)]

/-- A raw activity with identifier `7`, full heart-rate data and a
self-reported exertion (so no detail lookup fires). -/
def idRaw : RawActivity :=
  ⟨some 7, none, none, none, none, none, some 3600, none, some 150, some 250,
    some 2, none⟩

/-- The slimmed record the pipeline produces from `[idRaw]` with the
overrides `payloadW`: the override `3` lands in `exertion`; a single
calibration sample means the default scale `3.5` is used, so the estimate
is `round(clamp(3/5 * 3.5, 0, 5), 2) = 2.1`. -/
def idOut : SlimActivity :=
  { id := some 7, name := none, type := none, start_date := none,
    distance_km := 0, moving_time_min := 0, elapsed_time_min := 60,
    total_elevation_gain_m := none, avg_hr := some 150, max_hr := some 250,
    reported_exertion := some 2, avg_speed_kmh := none,
    url := some "https://www.strava.com/activities/7",
    exertion := some 3, estimated_exertion := some (21/10) }

/-- Evaluation helper: `roundTo n x = c` once the inner `round` is known. -/
theorem roundTo_eval (n : ℕ) (x : ℚ) (k : ℤ) (c : ℚ)
    (hk : round (x * 10 ^ n) = k) (hc : (k : ℚ) / 10 ^ n = c) :
    roundTo n x = c := by
  simp only [roundTo]
  rw [hk, hc]

/-- Rounding fixes zero. -/
theorem roundTo_zero (n : ℕ) : roundTo n 0 = 0 := by
  simp [roundTo]

/-- The base score of the spec's example activity `(150, 185, 60)`. -/
theorem compute_score_base_example :
    compute_score_base (some 150) (some 185) (some 60) = some (51/100) := by
  simp only [compute_score_base, SCORE_INTENSITY_REF_HR, SCORE_BASELINE_MAX_HR,
    SCORE_MAX_HR_MIN_FACTOR, SCORE_MAX_HR_MAX_FACTOR]
  rw [if_neg (by push_neg; norm_num)]
  norm_num [min_def, max_def]

/-- The base score of the round-number activity `(150, 250, 60)`. -/
theorem compute_score_base_round_example :
    compute_score_base (some 150) (some 250) (some 60) = some (3/5) := by
  simp only [compute_score_base, SCORE_INTENSITY_REF_HR, SCORE_BASELINE_MAX_HR,
    SCORE_MAX_HR_MIN_FACTOR, SCORE_MAX_HR_MAX_FACTOR]
  rw [if_neg (by push_neg; norm_num)]
  norm_num [min_def, max_def]

/-- C1: `compute_score_base` returns `None` if any of the three inputs is
`None`, zero, or negative; otherwise it returns
`(avg_hr / 250) * (elapsed_time_min / 60) * clamp(max_hr / 250, 0.85, 1.25)`. -/
theorem compute_score_base_correct (a m e : Option ℚ) :
    ((a = none ∨ m = none ∨ e = none ∨ (∃ x, a = some x ∧ x ≤ 0) ∨
        (∃ y, m = some y ∧ y ≤ 0) ∨ (∃ z, e = some z ∧ z ≤ 0)) →
      compute_score_base a m e = none) ∧
    (∀ x y z, a = some x → m = some y → e = some z →
      0 < x → 0 < y → 0 < z →
      compute_score_base a m e =
        some (x / 250 * (z / 60) * max (85/100) (min (125/100) (y / 250)))) := by
  constructor
  · intro h
    rcases a with _ | x
    · cases m <;> cases e <;> rfl
    rcases m with _ | y
    · cases e <;> rfl
    rcases e with _ | z
    · rfl
    simp only [compute_score_base]
    rcases h with h | h | h | ⟨x', hx, hx0⟩ | ⟨y', hy, hy0⟩ | ⟨z', hz, hz0⟩
    · exact absurd h (by simp)
    · exact absurd h (by simp)
    · exact absurd h (by simp)
    · rw [if_pos (Or.inl (Option.some_inj.mp hx ▸ hx0))]
    · rw [if_pos (Or.inr (Or.inl (Option.some_inj.mp hy ▸ hy0)))]
    · rw [if_pos (Or.inr (Or.inr (Option.some_inj.mp hz ▸ hz0)))]
  · rintro x y z rfl rfl rfl hx hy hz
    simp only [compute_score_base, SCORE_INTENSITY_REF_HR,
      SCORE_BASELINE_MAX_HR, SCORE_MAX_HR_MIN_FACTOR, SCORE_MAX_HR_MAX_FACTOR]
    rw [if_neg (by push_neg; exact ⟨hx, hy, hz⟩)]

/-- Witness for C1 at the inputs `(150, 185, 60)` and `(None, 150, 60)`. -/
theorem compute_score_base_correct_witness :
    compute_score_base (some 150) (some 185) (some 60) =
      some ((150 : ℚ) / 250 * (60 / 60) *
        max (85/100) (min (125/100) (185 / 250))) ∧
    compute_score_base none (some 150) (some 60) = none :=
  ⟨(compute_score_base_correct (some 150) (some 185) (some 60)).2 150 185 60
      rfl rfl rfl (by norm_num) (by norm_num) (by norm_num),
    (compute_score_base_correct none (some 150) (some 60)).1 (Or.inl rfl)⟩

/-- C3: `estimate_exertion` returns `None` exactly when the base score is
`None`, and otherwise `clamp(base * scale, 0, 5)` rounded to 2 decimals. -/
theorem estimate_exertion_correct (a m e : Option ℚ) (scale : ℚ) :
    (estimate_exertion a m e scale = none ↔ compute_score_base a m e = none) ∧
    (∀ b, compute_score_base a m e = some b →
      estimate_exertion a m e scale =
        some (roundTo 2 (max 0 (min 5 (b * scale))))) := by
  constructor
  · constructor
    · intro h
      cases hb : compute_score_base a m e with
      | none => rfl
      | some b => simp [estimate_exertion, hb] at h
    · intro h
      simp [estimate_exertion, h]
  · intro b hb
    simp [estimate_exertion, hb]

/-- Witness for C3 at the inputs `(150, 185, 60)` with scale `3.5`. -/
theorem estimate_exertion_correct_witness :
    estimate_exertion (some 150) (some 185) (some 60) (7/2) =
      some (roundTo 2 (max 0 (min 5 ((51/100) * (7/2))))) :=
  (estimate_exertion_correct (some 150) (some 185) (some 60) (7/2)).2 (51/100)
    compute_score_base_example

/-- C5: on the spec's example activity `(avg_hr 150, max_hr 185,
elapsed 60 min)` with scale `3.5`: intensity `0.6`, integrated `0.6`,
factor `clamp(0.74, 0.85, 1.25) = 0.85`, base `0.51`, and the estimate is
`round(clamp(1.785, 0, 5), 2) = 1.79`. -/
theorem example_activity_values :
    (150 / SCORE_INTENSITY_REF_HR : ℚ) = 6/10 ∧
    ((6/10 : ℚ) * (60 / 60)) = 6/10 ∧
    max SCORE_MAX_HR_MIN_FACTOR
      (min SCORE_MAX_HR_MAX_FACTOR (185 / SCORE_BASELINE_MAX_HR)) = 85/100 ∧
    compute_score_base (some 150) (some 185) (some 60) = some (51/100) ∧
    estimate_exertion (some 150) (some 185) (some 60) (7/2) = some (179/100) := by
  refine ⟨by norm_num [SCORE_INTENSITY_REF_HR], by norm_num, ?_,
    compute_score_base_example, ?_⟩
  · norm_num [SCORE_MAX_HR_MIN_FACTOR, SCORE_MAX_HR_MAX_FACTOR,
      SCORE_BASELINE_MAX_HR, SCORE_INTENSITY_REF_HR, min_def, max_def]
  · simp only [estimate_exertion, compute_score_base_example]
    have hc : max 0 (min 5 ((51/100 : ℚ) * (7/2))) = 357/200 := by
      norm_num [min_def, max_def]
    rw [hc, roundTo_eval 2 (357/200) 179 (179/100)
      (by rw [round_eq]; norm_num [Int.floor_eq_iff]) (by norm_num)]

/-- `x or 0` keeps the numeric value of a present field. -/
theorem orFalsy_some (v : ℚ) : orFalsy (some v) 0 = v := by
  rcases eq_or_ne v 0 with h | h <;> simp [orFalsy, h]

/-- C6 counterexample: for a source average speed of `-1` m/s, `slim` does
not produce a null `avg_speed_kmh`; it produces `-3.6`. -/
theorem slim_negative_speed_counterexample :
    negSpeedRaw.average_speed = some (-1) ∧
    (slim negSpeedRaw).avg_speed_kmh = some (-(18/5)) ∧
    (slim negSpeedRaw).avg_speed_kmh ≠ none := by
  have h : (slim negSpeedRaw).avg_speed_kmh = some (-(18/5)) := by
    show (if (-1 : ℚ) = 0 then none else
      some (roundTo 2 ((-1) * (36/10)))) = some (-(18/5))
    rw [if_neg (by norm_num)]
    have hx : ((-1 : ℚ) * (36/10)) = -(18/5) := by norm_num
    rw [hx, roundTo_eval 2 (-(18/5)) (-360) (-(18/5))
      (by rw [round_eq]; norm_num [Int.floor_eq_iff]) (by norm_num)]
  exact ⟨rfl, h, by rw [h]; simp⟩

/-- C6 (amended): `avg_speed_kmh` is null when the source average speed is
zero or absent; for any nonzero source speed (negative included) it is the
speed times 3.6, rounded to 2 decimals. -/
theorem avg_speed_kmh_spec (activity : RawActivity) :
    ((activity.average_speed = none ∨ activity.average_speed = some 0) →
      (slim activity).avg_speed_kmh = none) ∧
    (∀ v, activity.average_speed = some v → v ≠ 0 →
      (slim activity).avg_speed_kmh = some (roundTo 2 (v * (36/10)))) := by
  constructor
  · rintro (h | h) <;> simp [slim, h]
  · intro v hv hv0
    simp [slim, hv, hv0]

/-- Witness for C6 (amended) at speeds `5` and absent. -/
theorem avg_speed_kmh_spec_witness :
    (slim posSpeedRaw).avg_speed_kmh = some (roundTo 2 ((5 : ℚ) * (36/10))) ∧
    (slim convRaw).avg_speed_kmh = none :=
  ⟨(avg_speed_kmh_spec posSpeedRaw).2 5 rfl (by norm_num),
    (avg_speed_kmh_spec convRaw).1 (Or.inl rfl)⟩

/-- C7: `slim` converts distance to kilometres rounded to 2 decimals
(`0` when missing) and times to minutes rounded to 1 decimal (`0` when
missing); on `(distance 12345 m, moving 1800 s, elapsed 2000 s)` this gives
`12.35`, `30.0`, `33.3`. -/
theorem slim_conversions (activity : RawActivity) :
    (∀ d, activity.distance = some d →
      (slim activity).distance_km = roundTo 2 (d / 1000)) ∧
    (activity.distance = none → (slim activity).distance_km = 0) ∧
    (∀ s, activity.moving_time = some s →
      (slim activity).moving_time_min = roundTo 1 (s / 60)) ∧
    (activity.moving_time = none → (slim activity).moving_time_min = 0) ∧
    (∀ s, activity.elapsed_time = some s →
      (slim activity).elapsed_time_min = roundTo 1 (s / 60)) ∧
    (activity.elapsed_time = none → (slim activity).elapsed_time_min = 0) ∧
    (activity.distance = some 12345 →
      (slim activity).distance_km = 1235/100) ∧
    (activity.moving_time = some 1800 →
      (slim activity).moving_time_min = 30) ∧
    (activity.elapsed_time = some 2000 →
      (slim activity).elapsed_time_min = 333/10) := by
  refine ⟨fun d hd => ?_, fun hd => ?_, fun s hs => ?_, fun hs => ?_,
    fun s hs => ?_, fun hs => ?_, fun hd => ?_, fun hs => ?_, fun hs => ?_⟩
  · simp [slim, hd, orFalsy_some]
  · simp [slim, hd, orFalsy, roundTo_zero]
  · simp [slim, hs, orFalsy_some]
  · simp [slim, hs, orFalsy, roundTo_zero]
  · simp [slim, hs, orFalsy_some]
  · simp [slim, hs, orFalsy, roundTo_zero]
  · have h1 : (slim activity).distance_km = roundTo 2 (12345 / 1000) := by
      simp [slim, hd, orFalsy_some]
    rw [h1, roundTo_eval 2 (12345/1000) 1235 (1235/100)
      (by rw [round_eq]; norm_num [Int.floor_eq_iff]) (by norm_num)]
  · have h1 : (slim activity).moving_time_min = roundTo 1 (1800 / 60) := by
      simp [slim, hs, orFalsy_some]
    rw [h1, roundTo_eval 1 (1800/60) 300 30
      (by rw [round_eq]; norm_num [Int.floor_eq_iff]) (by norm_num)]
  · have h1 : (slim activity).elapsed_time_min = roundTo 1 (2000 / 60) := by
      simp [slim, hs, orFalsy_some]
    rw [h1, roundTo_eval 1 (2000/60) 333 (333/10)
      (by rw [round_eq]; norm_num [Int.floor_eq_iff]) (by norm_num)]

/-- Witness for C7 on the record
`(distance 12345 m, moving 1800 s, elapsed 2000 s)`. -/
theorem slim_conversions_witness :
    (slim convRaw).distance_km = 1235/100 ∧
    (slim convRaw).moving_time_min = 30 ∧
    (slim convRaw).elapsed_time_min = 333/10 :=
  ⟨(slim_conversions convRaw).2.2.2.2.2.2.1 rfl,
    (slim_conversions convRaw).2.2.2.2.2.2.2.1 rfl,
    (slim_conversions convRaw).2.2.2.2.2.2.2.2 rfl⟩

/-- C10: `enrich_activity` changes nothing outside the three heart-rate /
exertion keys: identifier, name, type, start timestamp, distance,
moving/elapsed time, elevation gain and average speed are untouched. -/
theorem enrich_activity_frame (activity : RawActivity)
    (getDetails : ℤ → ActivityDetails) :
    (enrich_activity activity getDetails).id = activity.id ∧
    (enrich_activity activity getDetails).name = activity.name ∧
    (enrich_activity activity getDetails).type = activity.type ∧
    (enrich_activity activity getDetails).start_date = activity.start_date ∧
    (enrich_activity activity getDetails).distance = activity.distance ∧
    (enrich_activity activity getDetails).moving_time = activity.moving_time ∧
    (enrich_activity activity getDetails).elapsed_time =
      activity.elapsed_time ∧
    (enrich_activity activity getDetails).total_elevation_gain =
      activity.total_elevation_gain ∧
    (enrich_activity activity getDetails).average_speed =
      activity.average_speed := by
  unfold enrich_activity
  split
  · exact ⟨rfl, rfl, rfl, rfl, rfl, rfl, rfl, rfl, rfl⟩
  · split
    · exact ⟨rfl, rfl, rfl, rfl, rfl, rfl, rfl, rfl, rfl⟩
    · exact ⟨rfl, rfl, rfl, rfl, rfl, rfl, rfl, rfl, rfl⟩

/-- A present value survives the merge of one key. -/
theorem mergeDetail_some (v : ℚ) (d : Option ℚ) :
    mergeDetail (some v) d = some v := rfl

/-- A missing value is replaced by the detail value of that key. -/
theorem mergeDetail_none (d : Option ℚ) : mergeDetail none d = d := rfl

/-- C8: `enrich_activity` copies a detail value only into
`average_heartrate`, `max_heartrate`, `perceived_exertion`, only when the
activity's value is null and the detail's is not; a non-null value is
never overwritten. -/
theorem enrich_activity_merge (activity : RawActivity)
    (getDetails : ℤ → ActivityDetails) :
    (∀ v, activity.average_heartrate = some v →
      (enrich_activity activity getDetails).average_heartrate = some v) ∧
    (∀ v, activity.max_heartrate = some v →
      (enrich_activity activity getDetails).max_heartrate = some v) ∧
    (∀ v, activity.perceived_exertion = some v →
      (enrich_activity activity getDetails).perceived_exertion = some v) ∧
    ((enrich_activity activity getDetails).average_heartrate =
        activity.average_heartrate ∨
      (activity.average_heartrate = none ∧ ∃ n, activity.id = some n ∧
        (getDetails n).average_heartrate.isSome ∧
        (enrich_activity activity getDetails).average_heartrate =
          (getDetails n).average_heartrate)) ∧
    ((enrich_activity activity getDetails).max_heartrate =
        activity.max_heartrate ∨
      (activity.max_heartrate = none ∧ ∃ n, activity.id = some n ∧
        (getDetails n).max_heartrate.isSome ∧
        (enrich_activity activity getDetails).max_heartrate =
          (getDetails n).max_heartrate)) ∧
    ((enrich_activity activity getDetails).perceived_exertion =
        activity.perceived_exertion ∨
      (activity.perceived_exertion = none ∧ ∃ n, activity.id = some n ∧
        (getDetails n).perceived_exertion.isSome ∧
        (enrich_activity activity getDetails).perceived_exertion =
          (getDetails n).perceived_exertion)) := by
  unfold enrich_activity
  split
  · exact ⟨fun v hv => hv, fun v hv => hv, fun v hv => hv,
      Or.inl rfl, Or.inl rfl, Or.inl rfl⟩
  · split
    · exact ⟨fun v hv => hv, fun v hv => hv, fun v hv => hv,
        Or.inl rfl, Or.inl rfl, Or.inl rfl⟩
    · rename_i heq
      refine ⟨fun v hv => ?_, fun v hv => ?_, fun v hv => ?_, ?_, ?_, ?_⟩
      · show mergeDetail activity.average_heartrate _ = some v
        rw [hv, mergeDetail_some]
      · show mergeDetail activity.max_heartrate _ = some v
        rw [hv, mergeDetail_some]
      · show mergeDetail activity.perceived_exertion _ = some v
        rw [hv, mergeDetail_some]
      · show mergeDetail activity.average_heartrate _ = _ ∨ _
        cases ha : activity.average_heartrate with
        | some v => rw [mergeDetail_some]; exact Or.inl rfl
        | none =>
          rw [mergeDetail_none]
          cases hd : (getDetails _).average_heartrate with
          | none => exact Or.inl rfl
          | some w =>
            exact Or.inr ⟨rfl, _, heq, by rw [hd]; rfl, rfl⟩
      · show mergeDetail activity.max_heartrate _ = _ ∨ _
        cases ha : activity.max_heartrate with
        | some v => rw [mergeDetail_some]; exact Or.inl rfl
        | none =>
          rw [mergeDetail_none]
          cases hd : (getDetails _).max_heartrate with
          | none => exact Or.inl rfl
          | some w =>
            exact Or.inr ⟨rfl, _, heq, by rw [hd]; rfl, rfl⟩
      · show mergeDetail activity.perceived_exertion _ = _ ∨ _
        cases ha : activity.perceived_exertion with
        | some v => rw [mergeDetail_some]; exact Or.inl rfl
        | none =>
          rw [mergeDetail_none]
          cases hd : (getDetails _).perceived_exertion with
          | none => exact Or.inl rfl
          | some w =>
            exact Or.inr ⟨rfl, _, heq, by rw [hd]; rfl, rfl⟩

/-- Witness for C8: a present average heart rate survives enrichment even
when the details disagree. -/
theorem enrich_activity_merge_witness :
    (enrich_activity
      ⟨some 5, none, none, none, none, none, none, none, some 100, none,
        none, none⟩
      (fun _ => ⟨some 1, some 2, some 3⟩)).average_heartrate = some 100 :=
  (enrich_activity_merge
    ⟨some 5, none, none, none, none, none, none, none, some 100, none,
      none, none⟩
    (fun _ => ⟨some 1, some 2, some 3⟩)).1 100 rfl

/-- One fitter step, expressed through the sample the activity
contributes. -/
theorem fitStep_sample (s : ℚ × ℚ × ℕ) (activity : SlimActivity) :
    fitStep s activity =
      match sampleOf activity with
      | none => s
      | some p => (s.1 + p.1 * p.1, s.2.1 + p.1 * p.2, s.2.2 + 1) := by
  unfold fitStep sampleOf
  cases h1 : activity.exertion.orElse fun _ => activity.reported_exertion with
  | none => rfl
  | some actual =>
    cases h2 : compute_score_base activity.avg_hr activity.max_hr
        activity.elapsed_time_min with
    | none => rfl
    | some base => rfl

/-- The fitter loop accumulates exactly the squared bases, the
base-times-actual products, and the number of samples. -/
theorem foldl_fitStep (l : List SlimActivity) (s : ℚ × ℚ × ℕ) :
    l.foldl fitStep s =
      (s.1 + ((calibrationSamples l).map fun p => p.1 * p.1).sum,
       s.2.1 + ((calibrationSamples l).map fun p => p.1 * p.2).sum,
       s.2.2 + (calibrationSamples l).length) := by
  induction l generalizing s with
  | nil => simp [calibrationSamples]
  | cons a l ih =>
    rw [List.foldl_cons, fitStep_sample]
    cases h : sampleOf a with
    | none =>
      rw [ih]
      simp [calibrationSamples, List.filterMap_cons, h]
    | some p =>
      rw [ih]
      simp only [calibrationSamples, List.filterMap_cons, h, List.map_cons,
        List.sum_cons, List.length_cons]
      refine Prod.ext ?_ (Prod.ext ?_ ?_)
      · show s.1 + p.1 * p.1 + _ = s.1 + (p.1 * p.1 + _)
        ring
      · show s.2.1 + p.1 * p.2 + _ = s.2.1 + (p.1 * p.2 + _)
        ring
      · show s.2.2 + 1 + _ = s.2.2 + (_ + 1)
        omega

/-- C2: `fit_score_scale` accumulates `sum_x2` and `sum_xy` over exactly
the activities contributing a calibration sample (computable base and
known actual, the manual override taking priority over the self-reported
exertion), returns the default `3.5` when fewer than 2 samples exist, or
`sum_x2 ≤ 0`, or `sum_xy / sum_x2 ≤ 0`, and otherwise returns
`sum_xy / sum_x2` clamped to `[0.5, 6.0]`. -/
theorem fit_score_scale_spec (activities : List SlimActivity) :
    fit_score_scale activities =
      (let samples := calibrationSamples activities
       let sum_x2 := (samples.map fun p => p.1 * p.1).sum
       let sum_xy := (samples.map fun p => p.1 * p.2).sum
       if samples.length < 2 ∨ sum_x2 ≤ 0 ∨ sum_xy / sum_x2 ≤ 0 then
         DEFAULT_SCORE_SCALE
       else max SCORE_SCALE_MIN (min SCORE_SCALE_MAX (sum_xy / sum_x2))) := by
  unfold fit_score_scale
  rw [foldl_fitStep]
  simp only [zero_add]
  split_ifs with h1 h2 h3 <;> first | rfl | tauto

/-- Rounding to two decimals stays inside `[0, 5]`. -/
theorem roundTo_two_bounds (x : ℚ) (h0 : 0 ≤ x) (h5 : x ≤ 5) :
    0 ≤ roundTo 2 x ∧ roundTo 2 x ≤ 5 := by
  have hk0 : 0 ≤ round (x * 10 ^ 2) := by
    rw [round_eq]
    apply Int.floor_nonneg.mpr
    nlinarith
  have hk5 : round (x * 10 ^ 2) ≤ 500 := by
    rw [round_eq]
    have hlt : ⌊x * 10 ^ 2 + 1/2⌋ < 501 := by
      rw [Int.floor_lt]
      push_cast
      nlinarith
    omega
  unfold roundTo
  constructor
  · apply div_nonneg _ (by positivity)
    exact_mod_cast hk0
  · rw [div_le_iff₀ (by positivity)]
    calc ((round (x * 10 ^ 2) : ℤ) : ℚ) ≤ 500 := by exact_mod_cast hk5
      _ = 5 * 10 ^ 2 := by norm_num

/-- Whenever `estimate_exertion` returns a value it lies in `[0, 5]`. -/
theorem estimate_exertion_bounds (a m e : Option ℚ) (scale v : ℚ)
    (h : estimate_exertion a m e scale = some v) : 0 ≤ v ∧ v ≤ 5 := by
  unfold estimate_exertion at h
  cases hb : compute_score_base a m e with
  | none => rw [hb] at h; exact absurd h (by simp)
  | some b =>
    rw [hb] at h
    rw [← Option.some_inj.mp h]
    exact roundTo_two_bounds _ (le_max_left 0 _)
      (max_le (by norm_num) (min_le_left 5 _))

/-- The fitted scale lies in `[0.5, 6]`. -/
theorem fit_score_scale_bounds (acts : List SlimActivity) :
    1/2 ≤ fit_score_scale acts ∧ fit_score_scale acts ≤ 6 := by
  simp only [fit_score_scale]
  split_ifs with h1 h2
  · norm_num [DEFAULT_SCORE_SCALE]
  · norm_num [DEFAULT_SCORE_SCALE]
  · simp only [SCORE_SCALE_MIN, SCORE_SCALE_MAX]
    exact ⟨le_max_left _ _, max_le (by norm_num) (min_le_left _ _)⟩

/-- C4: every `estimated_exertion` the pipeline produces is null or in
`[0, 5]`, and `fit_score_scale` always lands in `[0.5, 6]`, a range that
contains the default `3.5`. -/
theorem pipeline_bounds (overrides : String → Option ℚ)
    (getDetails : ℤ → ActivityDetails) (activities : List RawActivity)
    (acts : List SlimActivity) :
    (∀ payload ∈ processActivities overrides getDetails activities,
      ∀ v, payload.estimated_exertion = some v → 0 ≤ v ∧ v ≤ 5) ∧
    (1/2 ≤ fit_score_scale acts ∧ fit_score_scale acts ≤ 6) ∧
    (1/2 ≤ DEFAULT_SCORE_SCALE ∧ DEFAULT_SCORE_SCALE ≤ 6) := by
  refine ⟨?_, fit_score_scale_bounds acts, by norm_num [DEFAULT_SCORE_SCALE]⟩
  intro payload hmem v hv
  simp only [processActivities, List.mem_map] at hmem
  obtain ⟨q, hq, rfl⟩ := hmem
  exact estimate_exertion_bounds q.avg_hr q.max_hr q.elapsed_time_min _ v hv

/-- A positive lookup in the override dict comes from an entry of the
file whose extracted value is that number. -/
theorem load_overrides_some (payload : List (String × OverrideEntry))
    (acc : String → Option ℚ) (k : String) (q : ℚ)
    (h : payload.foldl overrideStep acc k = some q) :
    (∃ entry, (k, entry) ∈ payload ∧ entryValue entry = some q) ∨
      acc k = some q := by
  induction payload generalizing acc with
  | nil => exact Or.inr h
  | cons kv rest ih =>
    rw [List.foldl_cons] at h
    rcases ih (overrideStep acc kv) h with ⟨entry, hmem, hval⟩ | hacc
    · exact Or.inl ⟨entry, List.mem_cons_of_mem kv hmem, hval⟩
    · obtain ⟨key, entry⟩ := kv
      cases he : entryValue entry with
      | none =>
        simp only [overrideStep, he] at hacc
        exact Or.inr hacc
      | some q' =>
        simp only [overrideStep, he] at hacc
        by_cases hk : k = key
        · subst hk
          rw [if_pos rfl] at hacc
          exact Or.inl ⟨entry, List.mem_cons_self _ _,
            he.trans (congrArg some (Option.some_inj.mp hacc))⟩
        · rw [if_neg hk] at hacc
          exact Or.inr hacc

/-- If no entry of the file yields a numeric value for a key, the
override dict has no value for that key. -/
theorem load_overrides_none (payload : List (String × OverrideEntry))
    (acc : String → Option ℚ) (k : String)
    (hall : ∀ entry, (k, entry) ∈ payload → entryValue entry = none)
    (hacc : acc k = none) :
    payload.foldl overrideStep acc k = none := by
  induction payload generalizing acc with
  | nil => exact hacc
  | cons kv rest ih =>
    rw [List.foldl_cons]
    apply ih
    · intro entry hmem
      exact hall entry (List.mem_cons_of_mem kv hmem)
    · obtain ⟨key, entry⟩ := kv
      cases he : entryValue entry with
      | none =>
        simp only [overrideStep, he]
        exact hacc
      | some q' =>
        by_cases hk : k = key
        · subst hk
          rw [hall entry (List.mem_cons_self _ _)] at he
          exact absurd he (by simp)
        · simp only [overrideStep, he]
          rw [if_neg hk]
          exact hacc

/-- C9: the manual `exertion` field of every pipeline output equals the
override dict's value at the activity's identifier rendered as a string
key (null when absent), the dict holds exactly the numeric entry values
of the overrides file (unwrapping an object entry's `exertion` member),
and the field is never blended with a model-derived value. -/
theorem exertion_override_correct (payload : List (String × OverrideEntry))
    (getDetails : ℤ → ActivityDetails) (activities : List RawActivity) :
    (∀ out ∈ processActivities (load_exertion_overrides payload) getDetails
        activities,
      out.exertion = load_exertion_overrides payload (pyStr out.id)) ∧
    (∀ k q, load_exertion_overrides payload k = some q →
      ∃ entry, (k, entry) ∈ payload ∧ entryValue entry = some q) ∧
    (∀ k, (∀ entry, (k, entry) ∈ payload → entryValue entry = none) →
      load_exertion_overrides payload k = none) := by
  refine ⟨?_, ?_, ?_⟩
  · intro out hmem
    simp only [processActivities, List.mem_map] at hmem
    obtain ⟨q, hq, rfl⟩ := hmem
    obtain ⟨a, ha, rfl⟩ := hq
    rfl
  · intro k q h
    rcases load_overrides_some payload (fun _ => none) k q h with hfound | hnone
    · exact hfound
    · exact absurd hnone (by simp)
  · intro k hall
    exact load_overrides_none payload (fun _ => none) k hall rfl

/-- One hour in minutes is rounded to itself. -/
theorem roundTo_sixty : roundTo 1 (60 : ℚ) = 60 :=
  roundTo_eval 1 60 600 60
    (by rw [round_eq]; norm_num [Int.floor_eq_iff]) (by norm_num)

/-- The estimate for base `3/5` at the default scale. -/
theorem estimate_exertion_round_eval :
    estimate_exertion (some 150) (some 250) (some 60) (7/2) = some (21/10) := by
  simp only [estimate_exertion, compute_score_base_round_example]
  have hc : max 0 (min 5 ((3/5 : ℚ) * (7/2))) = 21/10 := by
    norm_num [min_def, max_def]
  rw [hc, roundTo_eval 2 (21/10) 210 (21/10)
    (by rw [round_eq]; norm_num [Int.floor_eq_iff]) (by norm_num)]

/-- `hrRaw` needs no detail lookup, so enrichment is the identity on it. -/
theorem enrich_hrRaw : enrich_activity hrRaw detNone = hrRaw := rfl

/-- Normalization of `hrRaw`. -/
theorem slim_hrRaw : slim hrRaw = { hrOut with estimated_exertion := none } := by
  simp only [slim, hrRaw, hrOut, orFalsy, zero_div, roundTo_zero, roundTo_sixty]
  norm_num [roundTo_sixty]

/-- The first `main` loop on `hrRaw` with an empty override dict. -/
theorem processActivity_hrRaw :
    processActivity (fun _ => none) detNone hrRaw =
      { hrOut with estimated_exertion := none } := by
  simp only [processActivity, enrich_hrRaw, slim_hrRaw]
  rfl

/-- One sample is not enough: the batch `[hrRaw]` gets the default scale. -/
theorem fit_hrOut :
    fit_score_scale [{ hrOut with estimated_exertion := none }] =
      DEFAULT_SCORE_SCALE := by
  have hstep : fitStep (0, 0, 0) { hrOut with estimated_exertion := none } =
      (9/25, 9/5, 1) := by
    simp only [fitStep, hrOut, Option.orElse, compute_score_base_round_example]
    norm_num
  simp only [fit_score_scale, List.foldl_cons, List.foldl_nil, hstep]
  norm_num

/-- The full pipeline on the one-activity batch `[hrRaw]`. -/
theorem processActivities_hrRaw :
    processActivities (fun _ => none) detNone [hrRaw] = [hrOut] := by
  simp only [processActivities, List.map_cons, List.map_nil,
    processActivity_hrRaw, fit_hrOut, DEFAULT_SCORE_SCALE]
  norm_num [hrOut, estimate_exertion_round_eval]

/-- Witness for C4: the pipeline output for `hrRaw` carries the estimate
`2.1`, inside `[0, 5]`. -/
theorem pipeline_bounds_witness : 0 ≤ (21/10 : ℚ) ∧ (21/10 : ℚ) ≤ 5 :=
  (pipeline_bounds (fun _ => none) detNone [hrRaw] []).1 hrOut
    (by rw [processActivities_hrRaw]; exact List.mem_singleton.mpr rfl)
    (21/10) rfl

/-- The override dict of `payloadW` at key `"7"`. -/
theorem load_payloadW_seven :
    load_exertion_overrides payloadW "7" = some 3 := by
  simp [load_exertion_overrides, payloadW, overrideStep, entryValue]

/-- `idRaw` needs no detail lookup, so enrichment is the identity on it. -/
theorem enrich_idRaw : enrich_activity idRaw detNone = idRaw := rfl

/-- The URL built for identifier 7. -/
theorem stravaUrl_seven :
    stravaUrl 7 = "https://www.strava.com/activities/7" := rfl

/-- Normalization of `idRaw`. -/
theorem slim_idRaw :
    slim idRaw =
      { idOut with exertion := none, estimated_exertion := none } := by
  simp only [slim, idRaw, idOut, orFalsy, zero_div, roundTo_zero, roundTo_sixty,
    stravaUrl_seven]
  norm_num [roundTo_sixty]

/-- The first `main` loop on `idRaw` with the overrides `payloadW`. -/
theorem processActivity_idRaw :
    processActivity (load_exertion_overrides payloadW) detNone idRaw =
      { idOut with estimated_exertion := none } := by
  simp only [processActivity, enrich_idRaw, slim_idRaw]
  rw [show pyStr
      ({ idOut with exertion := none, estimated_exertion := none } :
        SlimActivity).id = "7" from rfl]
  rw [load_payloadW_seven]
  rfl

/-- One sample is not enough: the batch `[idRaw]` gets the default scale. -/
theorem fit_idOut :
    fit_score_scale [{ idOut with estimated_exertion := none }] =
      DEFAULT_SCORE_SCALE := by
  have hstep : fitStep (0, 0, 0) { idOut with estimated_exertion := none } =
      (9/25, 9/5, 1) := by
    simp only [fitStep, idOut, Option.orElse, compute_score_base_round_example]
    norm_num
  simp only [fit_score_scale, List.foldl_cons, List.foldl_nil, hstep]
  norm_num

/-- The full pipeline on the one-activity batch `[idRaw]` with overrides. -/
theorem processActivities_idRaw :
    processActivities (load_exertion_overrides payloadW) detNone [idRaw] =
      [idOut] := by
  simp only [processActivities, List.map_cons, List.map_nil,
    processActivity_idRaw, fit_idOut, DEFAULT_SCORE_SCALE]
  norm_num [idOut, estimate_exertion_round_eval]

/-- Witness for C9: the override `3` of activity `7` appears verbatim in
the pipeline output's `exertion`, the dict reflects the file entry, and a
key without a numeric entry resolves to null. -/
theorem exertion_override_correct_witness :
    idOut.exertion = some 3 ∧
    (∃ entry, ("7", entry) ∈ payloadW ∧ entryValue entry = some 3) ∧
    load_exertion_overrides payloadW "x" = none := by
  refine ⟨?_, ?_, ?_⟩
  · have h := (exertion_override_correct payloadW detNone [idRaw]).1 idOut
      (by rw [processActivities_idRaw]; exact List.mem_singleton.mpr rfl)
    rw [h, show pyStr idOut.id = "7" from rfl]
    exact load_payloadW_seven
  · exact (exertion_override_correct payloadW detNone [idRaw]).2.1 "7" 3
      load_payloadW_seven
  · refine (exertion_override_correct payloadW detNone [idRaw]).2.2 "x" ?_
    intro entry hmem
    simp [payloadW] at hmem

end FetchStrava
